import Mathlib

set_option maxRecDepth 10000

/-!
Shallow embedding of the `softfloat-sys` build script (`build.rs`).

The script drives a `cc::Build` builder: it detects the thread-local storage
keyword from the compiler family and version, dispatches on the compilation
target to a (Specialization, BuildTarget, Defines) triple, configures the
builder (include paths, defines, source files) through
`PlatformCfg::configure_platform`, applies an `OPT_LEVEL == "0"` workaround,
and finally adds one extra include path, `helper.c`, disables warnings and
compiles the `softfloat-sys` artifact.

Paths are modelled as lists of components (`Path::new(s)` is `[s]`,
`Path::join` appends one component).  The `cc::Build` builder is modelled as
the ordered list of service calls issued to it.  Fatal termination
(`expect`, `unwrap`, `unimplemented!`) is modelled with `Except BuildError`.
-/

namespace SoftfloatSys

/-- A filesystem path, as the list of its components. -/
abbrev FsPath := List String

/-- One call issued to the `cc::Build` compiler-service builder, in the order
the build script issues them. -/
inductive BuilderCall where
  | includePath (p : FsPath)
  | define (name : String) (value : Option String)
  | addFiles (ps : List FsPath)
  | addFile (p : FsPath)
  | optLevel (n : Nat)
  | warnings (b : Bool)
  | compile (artifact : String)
  deriving DecidableEq

/-- Fatal build termination: `expect`/`unimplemented!` panics carry their
message, `unwrap` on a missing environment variable carries the variable
name. -/
inductive BuildError where
  | panicMsg (msg : String)
  | envVarMissing (name : String)
  deriving DecidableEq

/-- The `Specialization` enum of `build.rs`. -/
inductive Specialization where
  | X8086
  | X8086_SSE
  | ARM_VFPv2
  | ARM_VFPv2_DefaultNaN
  | RISCV
  deriving DecidableEq

/-- `Specialization::to_str`. -/
def Specialization.to_str : Specialization → String
  | .X8086 => "8086"
  | .X8086_SSE => "8086-SSE"
  | .ARM_VFPv2 => "ARM-VFPv2"
  | .ARM_VFPv2_DefaultNaN => "ARM-VFPv2-defaultNaN"
  | .RISCV => "RISCV"

/-- The `BuildTarget` enum of `build.rs`. -/
inductive BuildTarget where
  | Linux_386_GCC
  | Linux_386_SSE2_GCC
  | Linux_Arm_VFPv2_GCC
  | Linux_x86_64_GCC
  | Wasm_Clang
  | Win32_MinGW
  | Win32_SSE2_MinGW
  | Win64_MinGW_w64
  deriving DecidableEq

/-- `BuildTarget::to_str`. -/
def BuildTarget.to_str : BuildTarget → String
  | .Linux_386_GCC => "Linux-386-GCC"
  | .Linux_386_SSE2_GCC => "Linux-386-SSE2-GCC"
  | .Linux_Arm_VFPv2_GCC => "Linux-ARM-VFPv2-GCC"
  | .Linux_x86_64_GCC => "Linux-x86_64-GCC"
  | .Wasm_Clang => "Wasm-Clang"
  | .Win32_MinGW => "Win32-MinGW"
  | .Win32_SSE2_MinGW => "Win32-SSE2-MinGW"
  | .Win64_MinGW_w64 => "Win64-MinGW-w64"

/-- The `Defines` record of `build.rs`. -/
structure Defines where
  softfloat_round_odd : Bool
  inline_level : Option Int
  softfloat_fast_div_32_to_16 : Bool
  softfloat_fast_div_64_to_32 : Bool
  softfloat_fast_int64 : Bool
  deriving DecidableEq

/-- Modelled from the spec: the `Version` type of the external `cc_version`
crate (not in this repository).  Per the spec, version comparison is
semantic on (major, minor), not lexicographic on the raw string. -/
structure Version where
  major : Nat
  minor : Nat
  deriving DecidableEq

/-- Modelled from the spec: semantic `>=` on versions, major first then
minor (`version >= Version::parse("4.9").unwrap()` in the source). -/
def Version.ge (v w : Version) : Bool :=
  v.major > w.major || (v.major == w.major && v.minor ≥ w.minor)

/-- The `PlatformCfg` struct of `build.rs`. -/
structure PlatformCfg where
  softfloat_source : FsPath
  softfloat_build : FsPath
  primitive_sources : List String
  specialize_sources : List String
  other_sources : List String
  thread_local : Option String

/-- `Path::join` with a single-component relative path, the only form the
build script uses. -/
def pathJoin (p : FsPath) (component : String) : FsPath :=
  p ++ [component]

/-- `PlatformCfg::configure_platform` (build.rs lines 79-124): the ordered
list of builder calls it issues.  Two include paths, one define per
true/`Some` field of `Defines` in field order, the `THREAD_LOCAL` define,
one `files` call for primitive chained with other sources resolved against
the source root, and one `files` call for the specialization sources
resolved against the specialization subdirectory. -/
def configure_platform (cfg : PlatformCfg) (spec : Specialization)
    (target : BuildTarget) (defines : Defines) : List BuilderCall :=
  let specialized_source_path := pathJoin cfg.softfloat_source spec.to_str
  [BuilderCall.includePath (pathJoin cfg.softfloat_build target.to_str),
   BuilderCall.includePath specialized_source_path]
  ++ (if defines.softfloat_round_odd then
        [BuilderCall.define "SOFTFLOAT_ROUND_ODD" none] else [])
  ++ (match defines.inline_level with
      | some level => [BuilderCall.define "INLINE_LEVEL" (some (toString level))]
      | none => [])
  ++ (if defines.softfloat_fast_div_32_to_16 then
        [BuilderCall.define "SOFTFLOAT_FAST_DIV32TO16" none] else [])
  ++ (if defines.softfloat_fast_div_64_to_32 then
        [BuilderCall.define "SOFTFLOAT_FAST_DIV64TO32" none] else [])
  ++ (if defines.softfloat_fast_int64 then
        [BuilderCall.define "SOFTFLOAT_FAST_INT64" none] else [])
  ++ [BuilderCall.define "THREAD_LOCAL" cfg.thread_local,
      BuilderCall.addFiles
        ((cfg.primitive_sources ++ cfg.other_sources).map
          (fun file => pathJoin cfg.softfloat_source file)),
      BuilderCall.addFiles
        (cfg.specialize_sources.map
          (fun file => pathJoin specialized_source_path file))]

/-- The thread-local keyword detection of `build.rs` lines 152-164.
`is_like_gnu` is `tool.is_like_gnu()`; `ver` is the result of
`cc_version(&tool)` (`none` when the version cannot be determined or
parsed, in which case `.expect("Failed to detect GCC version")` panics).
Non-GNU toolchains never consult the version. -/
def detectThreadLocal (is_like_gnu : Bool) (ver : Option Version) :
    Except BuildError (Option String) :=
  if is_like_gnu then
    match ver with
    | none => .error (.panicMsg "Failed to detect GCC version")
    | some version =>
      if version.ge ⟨4, 9⟩ then .ok (some "_Thread_local")
      else .ok (some "__thread")
  else
    .ok (some "_Thread_local")

/-- The primitive-routine source catalog (build.rs lines 170-202). -/
def primitive_sources : List String := [
  "s_eq128.c",
  "s_le128.c",
  "s_lt128.c",
  "s_shortShiftLeft128.c",
  "s_shortShiftRight128.c",
  "s_shortShiftRightJam64.c",
  "s_shortShiftRightJam64Extra.c",
  "s_shortShiftRightJam128.c",
  "s_shortShiftRightJam128Extra.c",
  "s_shiftRightJam32.c",
  "s_shiftRightJam64.c",
  "s_shiftRightJam64Extra.c",
  "s_shiftRightJam128.c",
  "s_shiftRightJam128Extra.c",
  "s_shiftRightJam256M.c",
  "s_countLeadingZeros8.c",
  "s_countLeadingZeros16.c",
  "s_countLeadingZeros32.c",
  "s_countLeadingZeros64.c",
  "s_add128.c",
  "s_add256M.c",
  "s_sub128.c",
  "s_sub256M.c",
  "s_mul64ByShifted32To128.c",
  "s_mul64To128.c",
  "s_mul128By32.c",
  "s_mul128To256M.c",
  "s_approxRecip_1Ks.c",
  "s_approxRecip32_1.c",
  "s_approxRecipSqrt_1Ks.c",
  "s_approxRecipSqrt32_1.c"
]

/-- The per-specialization source catalog (build.rs lines 203-222). -/
def specialize_sources : List String := [
  "softfloat_raiseFlags.c",
  "s_f16UIToCommonNaN.c",
  "s_commonNaNToF16UI.c",
  "s_propagateNaNF16UI.c",
  "s_f32UIToCommonNaN.c",
  "s_commonNaNToF32UI.c",
  "s_propagateNaNF32UI.c",
  "s_f64UIToCommonNaN.c",
  "s_commonNaNToF64UI.c",
  "s_propagateNaNF64UI.c",
  "extF80M_isSignalingNaN.c",
  "s_extF80UIToCommonNaN.c",
  "s_commonNaNToExtF80UI.c",
  "s_propagateNaNExtF80UI.c",
  "f128M_isSignalingNaN.c",
  "s_f128UIToCommonNaN.c",
  "s_commonNaNToF128UI.c",
  "s_propagateNaNF128UI.c"
]

/-- The generic numeric-operation source catalog (build.rs lines 223-477). -/
def other_sources : List String := [
  "s_roundToUI32.c",
  "s_roundToUI64.c",
  "s_roundToI32.c",
  "s_roundToI64.c",
  "s_normSubnormalF16Sig.c",
  "s_roundPackToF16.c",
  "s_normRoundPackToF16.c",
  "s_addMagsF16.c",
  "s_subMagsF16.c",
  "s_mulAddF16.c",
  "s_normSubnormalF32Sig.c",
  "s_roundPackToF32.c",
  "s_normRoundPackToF32.c",
  "s_addMagsF32.c",
  "s_subMagsF32.c",
  "s_mulAddF32.c",
  "s_normSubnormalF64Sig.c",
  "s_roundPackToF64.c",
  "s_normRoundPackToF64.c",
  "s_addMagsF64.c",
  "s_subMagsF64.c",
  "s_mulAddF64.c",
  "s_normSubnormalExtF80Sig.c",
  "s_roundPackToExtF80.c",
  "s_normRoundPackToExtF80.c",
  "s_addMagsExtF80.c",
  "s_subMagsExtF80.c",
  "s_normSubnormalF128Sig.c",
  "s_roundPackToF128.c",
  "s_normRoundPackToF128.c",
  "s_addMagsF128.c",
  "s_subMagsF128.c",
  "s_mulAddF128.c",
  "softfloat_state.c",
  "ui32_to_f16.c",
  "ui32_to_f32.c",
  "ui32_to_f64.c",
  "ui32_to_extF80.c",
  "ui32_to_extF80M.c",
  "ui32_to_f128.c",
  "ui32_to_f128M.c",
  "ui64_to_f16.c",
  "ui64_to_f32.c",
  "ui64_to_f64.c",
  "ui64_to_extF80.c",
  "ui64_to_extF80M.c",
  "ui64_to_f128.c",
  "ui64_to_f128M.c",
  "i32_to_f16.c",
  "i32_to_f32.c",
  "i32_to_f64.c",
  "i32_to_extF80.c",
  "i32_to_extF80M.c",
  "i32_to_f128.c",
  "i32_to_f128M.c",
  "i64_to_f16.c",
  "i64_to_f32.c",
  "i64_to_f64.c",
  "i64_to_extF80.c",
  "i64_to_extF80M.c",
  "i64_to_f128.c",
  "i64_to_f128M.c",
  "f16_to_ui32.c",
  "f16_to_ui64.c",
  "f16_to_i32.c",
  "f16_to_i64.c",
  "f16_to_ui32_r_minMag.c",
  "f16_to_ui64_r_minMag.c",
  "f16_to_i32_r_minMag.c",
  "f16_to_i64_r_minMag.c",
  "f16_to_f32.c",
  "f16_to_f64.c",
  "f16_to_extF80.c",
  "f16_to_extF80M.c",
  "f16_to_f128.c",
  "f16_to_f128M.c",
  "f16_roundToInt.c",
  "f16_add.c",
  "f16_sub.c",
  "f16_mul.c",
  "f16_mulAdd.c",
  "f16_div.c",
  "f16_rem.c",
  "f16_sqrt.c",
  "f16_eq.c",
  "f16_le.c",
  "f16_lt.c",
  "f16_eq_signaling.c",
  "f16_le_quiet.c",
  "f16_lt_quiet.c",
  "f16_isSignalingNaN.c",
  "f32_to_ui32.c",
  "f32_to_ui64.c",
  "f32_to_i32.c",
  "f32_to_i64.c",
  "f32_to_ui32_r_minMag.c",
  "f32_to_ui64_r_minMag.c",
  "f32_to_i32_r_minMag.c",
  "f32_to_i64_r_minMag.c",
  "f32_to_f16.c",
  "f32_to_f64.c",
  "f32_to_extF80.c",
  "f32_to_extF80M.c",
  "f32_to_f128.c",
  "f32_to_f128M.c",
  "f32_roundToInt.c",
  "f32_add.c",
  "f32_sub.c",
  "f32_mul.c",
  "f32_mulAdd.c",
  "f32_div.c",
  "f32_rem.c",
  "f32_sqrt.c",
  "f32_eq.c",
  "f32_le.c",
  "f32_lt.c",
  "f32_eq_signaling.c",
  "f32_le_quiet.c",
  "f32_lt_quiet.c",
  "f32_isSignalingNaN.c",
  "f64_to_ui32.c",
  "f64_to_ui64.c",
  "f64_to_i32.c",
  "f64_to_i64.c",
  "f64_to_ui32_r_minMag.c",
  "f64_to_ui64_r_minMag.c",
  "f64_to_i32_r_minMag.c",
  "f64_to_i64_r_minMag.c",
  "f64_to_f16.c",
  "f64_to_f32.c",
  "f64_to_extF80.c",
  "f64_to_extF80M.c",
  "f64_to_f128.c",
  "f64_to_f128M.c",
  "f64_roundToInt.c",
  "f64_add.c",
  "f64_sub.c",
  "f64_mul.c",
  "f64_mulAdd.c",
  "f64_div.c",
  "f64_rem.c",
  "f64_sqrt.c",
  "f64_eq.c",
  "f64_le.c",
  "f64_lt.c",
  "f64_eq_signaling.c",
  "f64_le_quiet.c",
  "f64_lt_quiet.c",
  "f64_isSignalingNaN.c",
  "extF80_to_ui32.c",
  "extF80_to_ui64.c",
  "extF80_to_i32.c",
  "extF80_to_i64.c",
  "extF80_to_ui32_r_minMag.c",
  "extF80_to_ui64_r_minMag.c",
  "extF80_to_i32_r_minMag.c",
  "extF80_to_i64_r_minMag.c",
  "extF80_to_f16.c",
  "extF80_to_f32.c",
  "extF80_to_f64.c",
  "extF80_to_f128.c",
  "extF80_roundToInt.c",
  "extF80_add.c",
  "extF80_sub.c",
  "extF80_mul.c",
  "extF80_div.c",
  "extF80_rem.c",
  "extF80_sqrt.c",
  "extF80_eq.c",
  "extF80_le.c",
  "extF80_lt.c",
  "extF80_eq_signaling.c",
  "extF80_le_quiet.c",
  "extF80_lt_quiet.c",
  "extF80_isSignalingNaN.c",
  "extF80M_to_ui32.c",
  "extF80M_to_ui64.c",
  "extF80M_to_i32.c",
  "extF80M_to_i64.c",
  "extF80M_to_ui32_r_minMag.c",
  "extF80M_to_ui64_r_minMag.c",
  "extF80M_to_i32_r_minMag.c",
  "extF80M_to_i64_r_minMag.c",
  "extF80M_to_f16.c",
  "extF80M_to_f32.c",
  "extF80M_to_f64.c",
  "extF80M_to_f128M.c",
  "extF80M_roundToInt.c",
  "extF80M_add.c",
  "extF80M_sub.c",
  "extF80M_mul.c",
  "extF80M_div.c",
  "extF80M_rem.c",
  "extF80M_sqrt.c",
  "extF80M_eq.c",
  "extF80M_le.c",
  "extF80M_lt.c",
  "extF80M_eq_signaling.c",
  "extF80M_le_quiet.c",
  "extF80M_lt_quiet.c",
  "f128_to_ui32.c",
  "f128_to_ui64.c",
  "f128_to_i32.c",
  "f128_to_i64.c",
  "f128_to_ui32_r_minMag.c",
  "f128_to_ui64_r_minMag.c",
  "f128_to_i32_r_minMag.c",
  "f128_to_i64_r_minMag.c",
  "f128_to_f16.c",
  "f128_to_f32.c",
  "f128_to_extF80.c",
  "f128_to_f64.c",
  "f128_roundToInt.c",
  "f128_add.c",
  "f128_sub.c",
  "f128_mul.c",
  "f128_mulAdd.c",
  "f128_div.c",
  "f128_rem.c",
  "f128_sqrt.c",
  "f128_eq.c",
  "f128_le.c",
  "f128_lt.c",
  "f128_eq_signaling.c",
  "f128_le_quiet.c",
  "f128_lt_quiet.c",
  "f128_isSignalingNaN.c",
  "f128M_to_ui32.c",
  "f128M_to_ui64.c",
  "f128M_to_i32.c",
  "f128M_to_i64.c",
  "f128M_to_ui32_r_minMag.c",
  "f128M_to_ui64_r_minMag.c",
  "f128M_to_i32_r_minMag.c",
  "f128M_to_i64_r_minMag.c",
  "f128M_to_f16.c",
  "f128M_to_f32.c",
  "f128M_to_extF80M.c",
  "f128M_to_f64.c",
  "f128M_roundToInt.c",
  "f128M_add.c",
  "f128M_sub.c",
  "f128M_mul.c",
  "f128M_mulAdd.c",
  "f128M_div.c",
  "f128M_rem.c",
  "f128M_sqrt.c",
  "f128M_eq.c",
  "f128M_le.c",
  "f128M_lt.c",
  "f128M_eq_signaling.c",
  "f128M_le_quiet.c",
  "f128M_lt_quiet.c"
]

def softfloat_base : FsPath := ["berkeley-softfloat-3"]

def softfloat_source : FsPath := pathJoin softfloat_base "source"

def softfloat_build : FsPath := pathJoin softfloat_base "build"

/-- The `platform_cfg` value built in `main` (build.rs lines 479-486),
parametrised by the detected thread-local keyword. -/
def softfloatPlatformCfg (thread_local : Option String) : PlatformCfg :=
  { softfloat_source := softfloat_source
    softfloat_build := softfloat_build
    primitive_sources := primitive_sources
    specialize_sources := specialize_sources
    other_sources := other_sources
    thread_local := thread_local }

/-- The build environment visible to `main`: the compilation-target `cfg!`
flags, the compiler family and version probes, and the `OPT_LEVEL`
environment variable (`none` = absent from the environment). -/
structure BuildEnv where
  target_arch : String
  target_os : String
  is_like_gnu : Bool
  cc_version : Option Version
  opt_level : Option String

/-- The panic message of the `unimplemented!` at build.rs line 515. -/
def unsupportedTargetMsg : String :=
  "build rules are not implemented for the current target_arch and target_os"

/-- The target dispatch of `main` (build.rs lines 488-516): the `cfg!`
chain mapping the compilation target to the (Specialization, BuildTarget,
Defines) triple passed to `configure_platform`; `none` falls through to
`unimplemented!`.  Both arms pass the same `Defines` literal. -/
def resolveTarget (target_arch target_os : String) :
    Option (Specialization × BuildTarget × Defines) :=
  if target_arch == "x86_64" && target_os == "linux" then
    some (.X8086_SSE, .Linux_x86_64_GCC,
      { softfloat_round_odd := true
        inline_level := some 5
        softfloat_fast_div_32_to_16 := true
        softfloat_fast_div_64_to_32 := true
        softfloat_fast_int64 := true })
  else if target_arch == "wasm32" then
    some (.X8086, .Wasm_Clang,
      { softfloat_round_odd := true
        inline_level := some 5
        softfloat_fast_div_32_to_16 := true
        softfloat_fast_div_64_to_32 := true
        softfloat_fast_int64 := true })
  else
    none

/-- `main` (build.rs lines 150-525), restricted to the builder calls it
issues (the bindgen type-alias generation is an external collaborator and
is not modelled).  Thread-local detection runs first, then the target
dispatch and `configure_platform`, then the `OPT_LEVEL == "0"` workaround,
then the final include path, `helper.c`, `warnings(false)` and the
`compile("softfloat-sys")` request. -/
def mainBuild (env : BuildEnv) : Except BuildError (List BuilderCall) :=
  match detectThreadLocal env.is_like_gnu env.cc_version with
  | .error e => .error e
  | .ok thread_local =>
    match resolveTarget env.target_arch env.target_os with
    | none => .error (.panicMsg unsupportedTargetMsg)
    | some (spec, target, defines) =>
      let cfgCalls :=
        configure_platform (softfloatPlatformCfg thread_local) spec target defines
      match env.opt_level with
      | none => .error (.envVarMissing "OPT_LEVEL")
      | some opt =>
        .ok (cfgCalls
          ++ (if opt == "0" then [BuilderCall.optLevel 1] else [])
          ++ [BuilderCall.includePath (pathJoin softfloat_source "include"),
              BuilderCall.addFile ["helper.c"],
              BuilderCall.warnings false,
              BuilderCall.compile "softfloat-sys"])

/-- Whether a builder call sets the optimization level. -/
def isOptLevelCall : BuilderCall → Bool
  | .optLevel _ => true
  | _ => false

/-- The source files accumulated by a list of builder calls, in order. -/
def emittedFiles : List BuilderCall → List FsPath
  | [] => []
  | .addFiles ps :: rest => ps ++ emittedFiles rest
  | .addFile p :: rest => p :: emittedFiles rest
  | _ :: rest => emittedFiles rest

/-- Whether `needle` is a leading segment of `hay`. -/
def charsLeading : List Char → List Char → Bool
  | [], _ => true
  | _ :: _, [] => false
  | a :: as, b :: bs => a == b && charsLeading as bs

/-- Whether `needle` occurs contiguously somewhere in `hay`. -/
def charsSub (needle : List Char) : List Char → Bool
  | [] => needle.isEmpty
  | b :: bs => charsLeading needle (b :: bs) || charsSub needle bs

/-- Whether `needle` occurs as a contiguous substring of `hay`. -/
def strContains (hay needle : String) : Bool :=
  charsSub needle.data hay.data

/-- The builder calls of a successful run, `[]` on fatal termination
(used to state concrete instances of the theorems below). -/
def mainCallsOf (env : BuildEnv) : List BuilderCall :=
  match mainBuild env with
  | .ok calls => calls
  | .error _ => []

/-- Injective numeric key of a string: its base-1114112 value, one digit per
character (1114112 exceeds every Unicode scalar value).  Used to decide
distinctness of the file-name catalogs cheaply. -/
def strKey (s : String) : Nat :=
  s.data.foldl (fun h c => h * 1114112 + c.toNat) 0

/-- Numeric key of a path: the key of its slash-joined components. -/
def pathKey (p : FsPath) : Nat :=
  strKey (String.intercalate "/" p)

theorem nodup_primitive_other : (primitive_sources ++ other_sources).Nodup :=
  List.Nodup.of_map strKey (by decide)

theorem nodup_specialize : specialize_sources.Nodup :=
  List.Nodup.of_map strKey (by decide)

theorem filter_isOptLevelCall_configure (cfg : PlatformCfg) (spec : Specialization)
    (target : BuildTarget) (defines : Defines) :
    (configure_platform cfg spec target defines).filter isOptLevelCall = [] := by
  obtain ⟨ro, il, d32, d64, i64⟩ := defines
  cases ro <;> cases il <;> cases d32 <;> cases d64 <;> cases i64 <;> rfl

theorem emittedFiles_configure (cfg : PlatformCfg) (spec : Specialization)
    (target : BuildTarget) (defines : Defines) :
    emittedFiles (configure_platform cfg spec target defines) =
      (cfg.primitive_sources ++ cfg.other_sources).map
        (fun file => cfg.softfloat_source ++ [file])
      ++ cfg.specialize_sources.map
        (fun file => cfg.softfloat_source ++ [spec.to_str, file]) := by
  obtain ⟨ro, il, d32, d64, i64⟩ := defines
  cases ro <;> cases il <;> cases d32 <;> cases d64 <;> cases i64 <;>
    simp [configure_platform, emittedFiles, pathJoin]

/-- Claim C1: the Target/Specialization Table resolves exactly its two
declared predicates: 64-bit x86 on Linux selects BuildTarget
Linux-x86_64-GCC, the SSE-accelerated 8086 specialization ("8086-SSE") and
the full fast-path Defines (round-odd on, inline level 5, fast-div32to16
on, fast-div64to32 on, fast-int64 on); WebAssembly selects BuildTarget
Wasm-Clang, the plain 8086 specialization and the same Defines. -/
theorem c1_target_table :
    (∀ target_arch target_os : String, target_arch = "x86_64" → target_os = "linux" →
      resolveTarget target_arch target_os =
        some (Specialization.X8086_SSE, BuildTarget.Linux_x86_64_GCC,
          ⟨true, some 5, true, true, true⟩)) ∧
    (∀ target_arch target_os : String, target_arch = "wasm32" →
      resolveTarget target_arch target_os =
        some (Specialization.X8086, BuildTarget.Wasm_Clang,
          ⟨true, some 5, true, true, true⟩)) ∧
    Specialization.to_str .X8086_SSE = "8086-SSE" ∧
    Specialization.to_str .X8086 = "8086" ∧
    BuildTarget.to_str .Linux_x86_64_GCC = "Linux-x86_64-GCC" ∧
    BuildTarget.to_str .Wasm_Clang = "Wasm-Clang" := by
  refine ⟨?_, ?_, rfl, rfl, rfl, rfl⟩
  · intro target_arch target_os ha ho
    subst ha; subst ho; rfl
  · intro target_arch target_os ha
    subst ha; rfl

/-- Claim C1 witness: the two predicates at concrete environments. -/
theorem c1_target_table_witness :
    resolveTarget "x86_64" "linux" =
      some (Specialization.X8086_SSE, BuildTarget.Linux_x86_64_GCC,
        ⟨true, some 5, true, true, true⟩) ∧
    resolveTarget "wasm32" "unknown" =
      some (Specialization.X8086, BuildTarget.Wasm_Clang,
        ⟨true, some 5, true, true, true⟩) :=
  ⟨c1_target_table.1 "x86_64" "linux" rfl rfl,
   c1_target_table.2.1 "wasm32" "unknown" rfl⟩

/-- Claim C2: the Compiler Capability Detector returns the C11 keyword
"_Thread_local" for every non-GNU toolchain regardless of version, the C11
keyword for a GNU toolchain with semantic major.minor version >= 4.9
(including exactly 4.9), the pre-standard "__thread" for a GNU toolchain
with version < 4.9 (e.g. 4.8), and is deterministic. -/
theorem c2_thread_local_detector :
    (∀ ver : Option Version, detectThreadLocal false ver = .ok (some "_Thread_local")) ∧
    (∀ v : Version, v.ge ⟨4, 9⟩ = true →
      detectThreadLocal true (some v) = .ok (some "_Thread_local")) ∧
    detectThreadLocal true (some ⟨4, 9⟩) = .ok (some "_Thread_local") ∧
    (∀ v : Version, v.ge ⟨4, 9⟩ = false →
      detectThreadLocal true (some v) = .ok (some "__thread")) ∧
    detectThreadLocal true (some ⟨4, 8⟩) = .ok (some "__thread") ∧
    (∀ (is_like_gnu : Bool) (ver : Option Version),
      detectThreadLocal is_like_gnu ver = detectThreadLocal is_like_gnu ver) := by
  refine ⟨fun ver => rfl, ?_, rfl, ?_, rfl, fun _ _ => rfl⟩
  · intro v h
    simp [detectThreadLocal, h]
  · intro v h
    simp [detectThreadLocal, h]

/-- Claim C2 witness: the detector at GNU 9.3, GNU 4.9, GNU 4.8 and a
non-GNU toolchain. -/
theorem c2_thread_local_detector_witness :
    detectThreadLocal false none = .ok (some "_Thread_local") ∧
    detectThreadLocal true (some ⟨9, 3⟩) = .ok (some "_Thread_local") ∧
    detectThreadLocal true (some ⟨4, 8⟩) = .ok (some "__thread") :=
  ⟨c2_thread_local_detector.1 none,
   c2_thread_local_detector.2.1 ⟨9, 3⟩ (by decide),
   c2_thread_local_detector.2.2.2.1 ⟨4, 8⟩ (by decide)⟩

/-- Claim C8: detector and table failures are independent: with a
GNU-family compiler of version 4.6 the detector resolves the pre-standard
keyword without crashing, and on 32-bit ARM on Linux (no matching build
rule) the build then fails with the unsupported-target panic, not a
detector failure. -/
theorem c8_detector_table_independent :
    detectThreadLocal true (some ⟨4, 6⟩) = .ok (some "__thread") ∧
    mainBuild ⟨"arm", "linux", true, some ⟨4, 6⟩, some "2"⟩ =
      .error (.panicMsg unsupportedTargetMsg) :=
  ⟨rfl, rfl⟩

/-- Claim C9: on every build invocation, when the OPT_LEVEL environment
variable is absent the build terminates fatally; absence is never treated
like a non-"0" level. -/
theorem c9_opt_level_env_required (env : BuildEnv) (h : env.opt_level = none) :
    ∃ e, mainBuild env = .error e := by
  unfold mainBuild
  cases hd : detectThreadLocal env.is_like_gnu env.cc_version with
  | error e => exact ⟨e, rfl⟩
  | ok tl =>
    cases hr : resolveTarget env.target_arch env.target_os with
    | none => exact ⟨.panicMsg unsupportedTargetMsg, rfl⟩
    | some triple =>
      obtain ⟨spec, target, defines⟩ := triple
      rw [h]
      exact ⟨.envVarMissing "OPT_LEVEL", rfl⟩

/-- Claim C9 witness: a supported target (x86_64 Linux) with OPT_LEVEL
absent fails fatally. -/
theorem c9_opt_level_env_required_witness :
    ∃ e, mainBuild ⟨"x86_64", "linux", false, none, none⟩ = .error e :=
  c9_opt_level_env_required ⟨"x86_64", "linux", false, none, none⟩ rfl

/-- Claim C3 counterexample: for the unsupported environment
(sparc64, freebsd) the build fails fatally, but the panic message is fixed
text that does not name the unmatched architecture/OS pair: it contains
neither "sparc64" nor "freebsd". -/
theorem c3_counterexample :
    mainBuild ⟨"sparc64", "freebsd", false, none, some "2"⟩ =
      .error (.panicMsg unsupportedTargetMsg) ∧
    strContains unsupportedTargetMsg "sparc64" = false ∧
    strContains unsupportedTargetMsg "freebsd" = false :=
  ⟨rfl, by decide, by decide⟩

/-- Claim C3 (amended): for every build environment matching neither
declared predicate the build fails fatally rather than selecting any
default Specialization, and whenever thread-local detection succeeds the
failure is the fixed unsupported-target panic, whose message refers to the
current target_arch and target_os only generically, without naming the
concrete pair. -/
theorem c3_unsupported_target_fatal (env : BuildEnv)
    (h : resolveTarget env.target_arch env.target_os = none) :
    (∃ e, mainBuild env = .error e) ∧
    (∀ tl, detectThreadLocal env.is_like_gnu env.cc_version = .ok tl →
      mainBuild env = .error (.panicMsg unsupportedTargetMsg)) := by
  constructor
  · unfold mainBuild
    cases hd : detectThreadLocal env.is_like_gnu env.cc_version with
    | error e => exact ⟨e, rfl⟩
    | ok tl =>
      rw [h]
      exact ⟨.panicMsg unsupportedTargetMsg, rfl⟩
  · intro tl htl
    unfold mainBuild
    rw [htl, h]

/-- Claim C3 witness: 32-bit ARM on Linux with a non-GNU compiler. -/
theorem c3_unsupported_target_fatal_witness :
    (∃ e, mainBuild ⟨"arm", "linux", false, none, some "2"⟩ = .error e) ∧
    (∀ tl, detectThreadLocal false none = .ok tl →
      mainBuild ⟨"arm", "linux", false, none, some "2"⟩ =
        .error (.panicMsg unsupportedTargetMsg)) :=
  c3_unsupported_target_fatal ⟨"arm", "linux", false, none, some "2"⟩ rfl

/-- Claim C7 counterexample: a GNU-family toolchain whose version cannot be
determined makes the build fail fatally, but the panic message
"Failed to detect GCC version" does not name thread-local keyword
detection: it contains neither "thread" nor "Thread" nor "local". -/
theorem c7_counterexample :
    detectThreadLocal true none =
      .error (.panicMsg "Failed to detect GCC version") ∧
    strContains "Failed to detect GCC version" "thread" = false ∧
    strContains "Failed to detect GCC version" "Thread" = false ∧
    strContains "Failed to detect GCC version" "local" = false :=
  ⟨rfl, by decide, by decide, by decide⟩

/-- Claim C7 (amended): if the toolchain is GNU-family and its version
cannot be determined or parsed, the build fails fatally with no fallback
keyword, and the failure message states that GCC version detection failed
(it does not mention thread-local keyword detection). -/
theorem c7_gnu_version_failure_fatal (env : BuildEnv)
    (hgnu : env.is_like_gnu = true) (hver : env.cc_version = none) :
    detectThreadLocal env.is_like_gnu env.cc_version =
      .error (.panicMsg "Failed to detect GCC version") ∧
    mainBuild env = .error (.panicMsg "Failed to detect GCC version") := by
  have hd : detectThreadLocal env.is_like_gnu env.cc_version =
      .error (.panicMsg "Failed to detect GCC version") := by
    rw [hgnu, hver]; rfl
  refine ⟨hd, ?_⟩
  unfold mainBuild
  rw [hd]

/-- Claim C7 witness: a supported target (x86_64 Linux) with a GNU
toolchain of undetectable version fails fatally with the GCC-version
message. -/
theorem c7_gnu_version_failure_fatal_witness :
    detectThreadLocal true none =
      .error (.panicMsg "Failed to detect GCC version") ∧
    mainBuild ⟨"x86_64", "linux", true, none, some "2"⟩ =
      .error (.panicMsg "Failed to detect GCC version") :=
  c7_gnu_version_failure_fatal ⟨"x86_64", "linux", true, none, some "2"⟩ rfl rfl

/-- Claim C5: when the requested optimization level is "0" the effective
level passed to the compiler service is raised by exactly one step to 1
(a single opt-level override call); for every other requested level no
opt-level override call is issued at all. -/
theorem c5_opt_level_workaround (env : BuildEnv) (s : String)
    (hopt : env.opt_level = some s) (calls : List BuilderCall)
    (h : mainBuild env = .ok calls) :
    calls.filter isOptLevelCall =
      if s == "0" then [BuilderCall.optLevel 1] else [] := by
  unfold mainBuild at h
  cases hd : detectThreadLocal env.is_like_gnu env.cc_version with
  | error e => rw [hd] at h; cases h
  | ok tl =>
    rw [hd] at h
    cases hr : resolveTarget env.target_arch env.target_os with
    | none => rw [hr] at h; cases h
    | some triple =>
      obtain ⟨spec, target, defines⟩ := triple
      rw [hr, hopt] at h
      cases h
      rw [List.filter_append, List.filter_append,
        filter_isOptLevelCall_configure]
      cases hs : s == "0" <;> simp [isOptLevelCall]

/-- Claim C5 witness: on x86_64 Linux, OPT_LEVEL "0" yields exactly one
opt-level call raising the level to 1, and OPT_LEVEL "3" yields none. -/
theorem c5_opt_level_workaround_witness :
    (mainCallsOf ⟨"x86_64", "linux", false, none, some "0"⟩).filter isOptLevelCall =
      [BuilderCall.optLevel 1] ∧
    (mainCallsOf ⟨"x86_64", "linux", false, none, some "3"⟩).filter isOptLevelCall =
      [] := by
  constructor
  · have h := c5_opt_level_workaround ⟨"x86_64", "linux", false, none, some "0"⟩ "0" rfl
      (mainCallsOf ⟨"x86_64", "linux", false, none, some "0"⟩) rfl
    rw [h]; rfl
  · have h := c5_opt_level_workaround ⟨"x86_64", "linux", false, none, some "3"⟩ "3" rfl
      (mainCallsOf ⟨"x86_64", "linux", false, none, some "3"⟩) rfl
    rw [h]; rfl

/-- Claim C10: on every successful run the builder additionally receives,
after platform configuration, the include subdirectory of the source root,
the source file helper.c resolved at the repository root (a single-component
path, and a file listed in none of the three Source Catalog lists), a
warnings-disabled directive, and the compile request under the fixed
artifact name "softfloat-sys", in that final order. -/
theorem c10_final_builder_calls (env : BuildEnv) (calls : List BuilderCall)
    (h : mainBuild env = .ok calls) :
    (∃ pre, calls = pre ++
      [BuilderCall.includePath (pathJoin softfloat_source "include"),
       BuilderCall.addFile ["helper.c"],
       BuilderCall.warnings false,
       BuilderCall.compile "softfloat-sys"]) ∧
    "helper.c" ∉ primitive_sources ++ specialize_sources ++ other_sources := by
  refine ⟨?_, by decide⟩
  unfold mainBuild at h
  cases hd : detectThreadLocal env.is_like_gnu env.cc_version with
  | error e => rw [hd] at h; cases h
  | ok tl =>
    rw [hd] at h
    cases hr : resolveTarget env.target_arch env.target_os with
    | none => rw [hr] at h; cases h
    | some triple =>
      obtain ⟨spec, target, defines⟩ := triple
      rw [hr] at h
      cases hopt : env.opt_level with
      | none => rw [hopt] at h; cases h
      | some s =>
        rw [hopt] at h
        cases h
        exact ⟨configure_platform (softfloatPlatformCfg tl) spec target defines ++
          (if s == "0" then [BuilderCall.optLevel 1] else []), rfl⟩

/-- Claim C10 witness: the final four builder calls on x86_64 Linux. -/
theorem c10_final_builder_calls_witness :
    (∃ pre, mainCallsOf ⟨"x86_64", "linux", false, none, some "2"⟩ = pre ++
      [BuilderCall.includePath (pathJoin softfloat_source "include"),
       BuilderCall.addFile ["helper.c"],
       BuilderCall.warnings false,
       BuilderCall.compile "softfloat-sys"]) ∧
    "helper.c" ∉ primitive_sources ++ specialize_sources ++ other_sources :=
  c10_final_builder_calls ⟨"x86_64", "linux", false, none, some "2"⟩
    (mainCallsOf ⟨"x86_64", "linux", false, none, some "2"⟩) rfl

/-- Claim C4: for every (BuildTarget, Specialization, Defines) triple the
Build Plan Assembler issues its compiler-service calls in order: the two
include paths (build-metadata subdirectory of the BuildTarget, then the
specialization-named subdirectory under the source root), then one define
per true/Some field of Defines in field order (the inlining level carrying
its integer value), then the THREAD_LOCAL macro bound to the detected
keyword, then the primitive and generic-operation file lists resolved
against the source root, and last the specialization-routine file list
resolved against the specialization-named subdirectory. -/
theorem c4_assembler_call_order (cfg : PlatformCfg) (spec : Specialization)
    (target : BuildTarget) (defines : Defines) :
    configure_platform cfg spec target defines =
      [BuilderCall.includePath (cfg.softfloat_build ++ [target.to_str]),
       BuilderCall.includePath (cfg.softfloat_source ++ [spec.to_str])]
      ++ ((if defines.softfloat_round_odd then
            [BuilderCall.define "SOFTFLOAT_ROUND_ODD" none] else [])
        ++ (match defines.inline_level with
            | some level =>
              [BuilderCall.define "INLINE_LEVEL" (some (toString level))]
            | none => [])
        ++ (if defines.softfloat_fast_div_32_to_16 then
            [BuilderCall.define "SOFTFLOAT_FAST_DIV32TO16" none] else [])
        ++ (if defines.softfloat_fast_div_64_to_32 then
            [BuilderCall.define "SOFTFLOAT_FAST_DIV64TO32" none] else [])
        ++ (if defines.softfloat_fast_int64 then
            [BuilderCall.define "SOFTFLOAT_FAST_INT64" none] else []))
      ++ [BuilderCall.define "THREAD_LOCAL" cfg.thread_local]
      ++ [BuilderCall.addFiles
            ((cfg.primitive_sources ++ cfg.other_sources).map
              (fun file => cfg.softfloat_source ++ [file]))]
      ++ [BuilderCall.addFiles
            (cfg.specialize_sources.map
              (fun file => cfg.softfloat_source ++ [spec.to_str, file]))] := by
  simp [configure_platform, pathJoin]

set_option maxHeartbeats 1600000 in
/-- Claim C6: for each supported Specialization the Assembler emits the
full primitive and generic-operation lists resolved against the source
root plus exactly the specialization-routine list resolved against that
Specialization's subdirectory, with no duplicate entries and no file drawn
from a different Specialization's subdirectory. -/
theorem c6_specialization_file_isolation (spec : Specialization)
    (target : BuildTarget) (defines : Defines) (tl : Option String)
    (hspec : spec = Specialization.X8086_SSE ∨ spec = Specialization.X8086) :
    emittedFiles (configure_platform (softfloatPlatformCfg tl) spec target defines) =
      (primitive_sources ++ other_sources).map
        (fun file => softfloat_source ++ [file])
      ++ specialize_sources.map
        (fun file => softfloat_source ++ [spec.to_str, file]) ∧
    (emittedFiles (configure_platform (softfloatPlatformCfg tl) spec target defines)).Nodup ∧
    (∀ other : Specialization, other ≠ spec →
      ∀ p ∈ emittedFiles (configure_platform (softfloatPlatformCfg tl) spec target defines),
        Specialization.to_str other ∉ p) := by
  have h1 := emittedFiles_configure (softfloatPlatformCfg tl) spec target defines
  rcases hspec with h | h <;> subst h <;>
    refine ⟨h1, ?_, ?_⟩ <;> rw [h1] <;> simp only [softfloatPlatformCfg]
  · exact List.Nodup.of_map pathKey (by decide)
  · intro other
    cases other <;> decide
  · exact List.Nodup.of_map pathKey (by decide)
  · intro other
    cases other <;> decide

/-- Claim C6 witness: the emitted file set of the SSE-accelerated 8086
specialization on the Linux x86-64 target. -/
theorem c6_specialization_file_isolation_witness :
    emittedFiles (configure_platform (softfloatPlatformCfg (some "_Thread_local"))
        Specialization.X8086_SSE BuildTarget.Linux_x86_64_GCC
        ⟨true, some 5, true, true, true⟩) =
      (primitive_sources ++ other_sources).map
        (fun file => softfloat_source ++ [file])
      ++ specialize_sources.map
        (fun file => softfloat_source ++ [Specialization.to_str .X8086_SSE, file]) ∧
    (emittedFiles (configure_platform (softfloatPlatformCfg (some "_Thread_local"))
        Specialization.X8086_SSE BuildTarget.Linux_x86_64_GCC
        ⟨true, some 5, true, true, true⟩)).Nodup ∧
    (∀ other : Specialization, other ≠ Specialization.X8086_SSE →
      ∀ p ∈ emittedFiles (configure_platform (softfloatPlatformCfg (some "_Thread_local"))
          Specialization.X8086_SSE BuildTarget.Linux_x86_64_GCC
          ⟨true, some 5, true, true, true⟩),
        Specialization.to_str other ∉ p) :=
  c6_specialization_file_isolation Specialization.X8086_SSE
    BuildTarget.Linux_x86_64_GCC ⟨true, some 5, true, true, true⟩
    (some "_Thread_local") (Or.inl rfl)

end SoftfloatSys
